import Mathlib

/-!
Verification of `tkmaxx_gant_watcher.py`: a shallow embedding of the
crawler's data model and operations (products, extraction, diffing,
state store, notifier, main run), with theorems settling the frozen
claims about the program.

Conventions of the embedding:
* Python strings are `String`, Python sets are `Finset`.
* Python truthiness of a string `s` is `s ≠ ""`.
* The parsed JSON state file is a `Json` value; the file system slot is
  `Option Json` (`none` = absent, unreadable or unparseable).
* BeautifulSoup parsing is abstracted by a `Soup` record exposing, in
  document order, exactly the element data the source consults.
* Regular-expression search over page bodies is implemented concretely
  for the fixed patterns of the source (`PID_PATTERNS`, `TITLE_PATTERNS`).
-/

namespace Watcher

/-- Product record, from `@dataclass(frozen=True) class Product`. -/
structure Product where
  pid : String
  url : String
  title : String
deriving DecidableEq

/-- Python `\s` for the `re` module on ASCII text: space, tab, newline,
carriage return, vertical tab, form feed.  Also used for `str.strip()`. -/
def pySpace (c : Char) : Bool :=
  c == ' ' || c == '\t' || c == '\n' || c == '\r' || c == '\x0b' || c == '\x0c'

/-- Python `str.strip()` on a character list: drop leading and trailing
whitespace. -/
def pyStripL (l : List Char) : List Char :=
  ((l.dropWhile pySpace).reverse.dropWhile pySpace).reverse

/-- Python `str.strip()`. -/
def pyStrip (s : String) : String :=
  String.mk (pyStripL s.toList)

/-! ## Regular-expression machinery

The source uses two shapes of pattern, both case-insensitive with a
single `([^"]+)` capture group:
* attribute shape: `name="([^"]+)"` (e.g. `data-productid="..."`), and
* embedded-JSON shape: `"key"\s*:\s*"([^"]+)"` (e.g. `"productID":"..."`).
`findall` scans left to right, non-overlapping, returning the captures,
exactly like `re.findall`; `search` is its first hit. -/

/-- Case-insensitive character comparison (`re.I`). -/
def lcEq (a b : Char) : Bool :=
  a.toLower == b.toLower

/-- Match a literal (case-insensitively) at the head of the input,
returning the remainder on success. -/
def stripLitCI : List Char → List Char → Option (List Char)
  | [], s => some s
  | _, [] => none
  | c :: cs, d :: ds => if lcEq c d then stripLitCI cs ds else none

/-- Match `([^"]+)"` at the head of the input: a non-empty run of
non-quote characters followed by a closing quote.  Returns the capture
and the remainder after the closing quote. -/
def takeCapture (s : List Char) : Option (List Char × List Char) :=
  let cap := s.takeWhile (fun c => c != '"')
  let rest := s.dropWhile (fun c => c != '"')
  if cap.isEmpty then none
  else
    match rest with
    | '"' :: r => some (cap, r)
    | _ => none

/-- `\s*`. -/
def skipWs (s : List Char) : List Char :=
  s.dropWhile pySpace

/-- The two pattern shapes used by the source. -/
inductive Pat where
  | attrPat (name : List Char)
  | jsonPat (key : List Char)
deriving DecidableEq

/-- Try to match a pattern at the head of the input; on success return
the capture and the remainder after the whole match. -/
def tryPat : Pat → List Char → Option (List Char × List Char)
  | .attrPat name, s =>
    match stripLitCI (name ++ ['=', '"']) s with
    | some rest => takeCapture rest
    | none => none
  | .jsonPat key, s =>
    match stripLitCI ('"' :: key ++ ['"']) s with
    | some rest =>
      match skipWs rest with
      | ':' :: r3 =>
        match skipWs r3 with
        | '"' :: r4 => takeCapture r4
        | _ => none
      | _ => none
    | none => none

/-- Left-to-right non-overlapping scan (fuel-bounded; every successful
match consumes at least three characters, so fuel `length + 1` never
runs out). -/
def findallAux (p : Pat) : Nat → List Char → List String
  | 0, _ => []
  | _, [] => []
  | fuel + 1, c :: rest =>
    match tryPat p (c :: rest) with
    | some (cap, r2) => String.mk cap :: findallAux p fuel r2
    | none => findallAux p fuel rest

/-- `re.findall(pat, s)` for the source's patterns: the list of captures
of the non-overlapping matches, left to right. -/
def findall (p : Pat) (s : String) : List String :=
  findallAux p (s.length + 1) s.toList

/-- `re.search(pat, s)` returning the capture group, if any. -/
def search1 (p : Pat) (s : String) : Option String :=
  (findall p s).head?

/-- `PID_PATTERNS` from the source, in order. -/
def PID_PATTERNS : List Pat :=
  [ .attrPat "data-productid".toList,
    .jsonPat "productID".toList,
    .jsonPat "id".toList,
    .jsonPat "sku".toList ]

/-- `TITLE_PATTERNS` from the source, in order. -/
def TITLE_PATTERNS : List Pat :=
  [ .attrPat "data-productname".toList,
    .jsonPat "productName".toList ]

/-- First-occurrence deduplication, with the already-kept elements
accumulated. -/
def dedupFirstAux : List String → List String → List String
  | [], _ => []
  | x :: rest, seen =>
    if x ∈ seen then dedupFirstAux rest seen
    else x :: dedupFirstAux rest (x :: seen)

/-- First-occurrence deduplication of a list. -/
def dedupFirst (l : List String) : List String :=
  dedupFirstAux l []

/-- The id set of `extract_product_ids` as a concrete list: all
`findall` results over `PID_PATTERNS`, each stripped, empty results
discarded, deduplicated.  Python iterates the resulting set in
unspecified hash order; the model fixes first-match order. -/
def extract_ids_list (html : String) : List String :=
  let raw := (PID_PATTERNS.map (fun p => findall p html)).flatten
  dedupFirst ((raw.map pyStrip).filter (fun s => decide (s ≠ "")))

/-- `extract_product_ids`: union of all `findall` results over
`PID_PATTERNS`, each stripped, empty results discarded. -/
def extract_product_ids (html : String) : Finset String :=
  (extract_ids_list html).toFinset

/-- `extract_product_titles` builds a dict mapping every title match to
itself; so looking a pid up in it yields the pid itself when the pid is
among the title matches, and `""` otherwise.  This is the list of title
matches. -/
def extract_product_titles (html : String) : List String :=
  ((TITLE_PATTERNS.map (fun p => findall p html)).flatten)

/-- `titles_map.get(pid, "")` from the fallback branch of
`products_from_listing`. -/
def titleFor (html : String) (pid : String) : String :=
  if pid ∈ extract_product_titles html then pid else ""

/-! ## URL handling

Model of the `urllib.parse` fragments the source uses: `urlparse(u).netloc`,
`urlparse(u).scheme` and `urljoin(base, u)`.  The join is a simplified
RFC 3986 merge (no `..` normalisation); no claim depends on its
internals. -/

/-- Characters allowed in a URL scheme after the first letter. -/
def isSchemeChar (c : Char) : Bool :=
  c.isAlphanum || c == '+' || c == '-' || c == '.'

/-- Whether the input starts with a valid `scheme:`. -/
def hasScheme (l : List Char) : Bool :=
  let pre := l.takeWhile (fun c => c != ':')
  let rest := l.dropWhile (fun c => c != ':')
  !pre.isEmpty && pre.all isSchemeChar &&
    (match pre.head? with
     | some c => c.isAlpha
     | none => false) &&
    (match rest with
     | ':' :: _ => true
     | _ => false)

/-- The scheme of a URL, or `[]` if it has none. -/
def schemeOf (l : List Char) : List Char :=
  if hasScheme l then l.takeWhile (fun c => c != ':') else []

/-- The input with its `scheme:` stripped, if it has one. -/
def dropScheme (l : List Char) : List Char :=
  if hasScheme l then (l.dropWhile (fun c => c != ':')).tail else l

/-- `urlparse(u).netloc` as a character list (empty when absent). -/
def netlocOf (l : List Char) : List Char :=
  match dropScheme l with
  | '/' :: '/' :: r => r.takeWhile (fun c => c != '/' && c != '?' && c != '#')
  | _ => []

/-- `bool(urlparse(url).netloc)`. -/
def hasNetloc (url : String) : Bool :=
  !(netlocOf url.toList).isEmpty

/-- The path part of a URL that has a netloc. -/
def pathAfterNetloc (l : List Char) : List Char :=
  match dropScheme l with
  | '/' :: '/' :: r => r.dropWhile (fun c => c != '/' && c != '?' && c != '#')
  | r => r

/-- `scheme://netloc` of a URL. -/
def originOf (base : String) : String :=
  String.mk (schemeOf base.toList) ++ "://" ++ String.mk (netlocOf base.toList)

/-- The directory of a path: everything up to and including the last
slash. -/
def dirOf (l : List Char) : List Char :=
  (l.reverse.dropWhile (fun c => c != '/')).reverse

/-- Simplified model of `urllib.parse.urljoin(base, url)` for a `url`
with no netloc of its own (the only way the source calls it). -/
def urljoin (base url : String) : String :=
  if url.toList.take 2 = ['/', '/'] then
    String.mk (schemeOf base.toList) ++ ":" ++ url
  else if url.toList.head? = some '/' then
    originOf base ++ url
  else
    originOf base ++ String.mk (dirOf (pathAfterNetloc base.toList)) ++ url

/-- `sanitize_url` from the source. -/
def sanitize_url (url base : String) : String :=
  if url = "" then ""
  else if hasNetloc url then url
  else urljoin base url

/-- The `scheme://netloc` base computed at the top of `crawl_brand`. -/
def baseOf (url : String) : String :=
  String.mk (schemeOf url.toList) ++ "://" ++ String.mk (netlocOf url.toList)

/-! ## The soup model

`Soup` abstracts one parsed page, exposing exactly the element data the
source consults, in document order:
* `cards`: the elements matching
  `'[data-testid*="product-card"], .product-tile, li[data-productid]'`;
* `rawHtml`: `str(soup)`, the serialised page, re-scanned by the global
  regex fallback;
* `linkNextHref`: the `href` of `soup.find("link", rel="next")`
  (`none` when the element or the attribute is missing);
* `nextAnchorHrefs`: the `href` values (possibly `""` for a missing
  attribute) of the anchors matching
  `'a[rel="next"], a.pagination__next, a[aria-label="Next"]'`. -/

/-- The first `<a href=...>` descendant of a card
(`card.find("a", href=True)`). -/
structure Anchor where
  href : String
  titleAttr : Option String
  text : String
deriving DecidableEq

/-- One element matching the product-card selector. -/
structure Card where
  attrs : List (String × String)
  html : String
  anchor : Option Anchor
  titleEl : Option String
deriving DecidableEq

/-- One parsed page. -/
structure Soup where
  cards : List Card
  rawHtml : String
  linkNextHref : Option String
  nextAnchorHrefs : List String
deriving DecidableEq

/-- `card.get(name)`: attribute lookup. -/
def attrsGet (attrs : List (String × String)) (name : String) : Option String :=
  attrs.lookup name

/-- One step of the attribute scan
`pid = card.get(attr) or pid`: a present, non-empty (truthy) value
replaces the accumulator. -/
def pidStep (c : Card) (pid : Option String) (name : String) : Option String :=
  match attrsGet c.attrs name with
  | some v => if v ≠ "" then some v else pid
  | none => pid

/-- First `PID_PATTERNS` match over the card's serialised markup
(the per-card regex fallback). -/
def firstPatMatch (html : String) : Option String :=
  PID_PATTERNS.findSome? (fun p => search1 p html)

/-- The identifier the card path resolves for one card: data attributes
scanned in order (`data-productid`, `data-sku`, `data-itemid`,
`data-id`, a later truthy value winning), falling back to the first
regex match over `str(card)`. -/
def cardPid (c : Card) : Option String :=
  match ["data-productid", "data-sku", "data-itemid", "data-id"].foldl (pidStep c) none with
  | some p => some p
  | none => firstPatMatch c.html

/-- The card's URL: its first anchor's `href` sanitised against `base`,
or `""` when the card has no anchor. -/
def cardHref (base : String) (c : Card) : String :=
  match c.anchor with
  | some a => sanitize_url a.href base
  | none => ""

/-- Title fallback: the text of a title-like descendant
(`.product-name, .name, [data-testid='product-name']`), modelled as the
already-stripped `get_text(strip=True)` result. -/
def titleFromEl (c : Card) : String :=
  match c.titleEl with
  | some t => t
  | none => ""

/-- The card's title: the anchor's truthy `title` attribute, else the
anchor's truthy text, else the title-like descendant, else `""`. -/
def cardTitle (c : Card) : String :=
  match c.anchor with
  | some a =>
    match a.titleAttr with
    | some t =>
      if t ≠ "" then pyStrip t
      else if a.text ≠ "" then pyStrip a.text
      else titleFromEl c
    | none =>
      if a.text ≠ "" then pyStrip a.text
      else titleFromEl c
  | none => titleFromEl c

/-- The product one card contributes, if its resolved pid is truthy
(`if pid` in the source). -/
def cardProduct (base : String) (c : Card) : Option Product :=
  match cardPid c with
  | some pid => if pid ≠ "" then some ⟨pid, cardHref base c, cardTitle c⟩ else none
  | none => none

/-- The card loop of `products_from_listing`: collect each card's
product in order, skipping pids already seen (`pid not in seen_ids`). -/
def cardsLoop (base : String) : List Card → Finset String → List Product
  | [], _ => []
  | c :: rest, seen =>
    match cardProduct base c with
    | some p =>
      if p.pid ∈ seen then cardsLoop base rest seen
      else p :: cardsLoop base rest (insert p.pid seen)
    | none => cardsLoop base rest seen

/-- The products the card path yields for a page. -/
def cardsProducts (base : String) (cards : List Card) : List Product :=
  cardsLoop base cards ∅

/-- The global regex fallback of `products_from_listing`: ids extracted
from the raw page body, each with empty URL and the title-map lookup.
Python iterates the id set in unspecified hash order; the model fixes
the order by sorting. -/
def fallbackProducts (html : String) : List Product :=
  (extract_ids_list html).map (fun pid => ⟨pid, "", titleFor html pid⟩)

/-- `products_from_listing`: the card loop, and the global regex
fallback when the loop produced nothing (`if not products`). -/
def products_from_listing (soup : Soup) (base : String) : List Product :=
  let fromCards := cardsProducts base soup.cards
  if fromCards.isEmpty then fallbackProducts soup.rawHtml else fromCards

/-- Scan the pagination anchor candidates for the first truthy `href`. -/
def nextFromAnchors : List String → String → String
  | [], _ => ""
  | h :: rest, base =>
    if h ≠ "" then sanitize_url h base else nextFromAnchors rest base

/-- `find_next_page`: the `<link rel="next">` href when present and
truthy, else the first candidate anchor with a truthy href, else `""`. -/
def find_next_page (soup : Soup) (base : String) : String :=
  match soup.linkNextHref with
  | some h => if h ≠ "" then sanitize_url h base else nextFromAnchors soup.nextAnchorHrefs base
  | none => nextFromAnchors soup.nextAnchorHrefs base

/-! ## State store

The state file holds a JSON document.  `load_state` mirrors the Python:
a missing or unparseable file gives the empty set; `json.load` data that
is not an object makes `data.get` raise `AttributeError`, caught to give
the empty set; a missing `seen_ids` key defaults to `[]`; `set(value)`
over a non-iterable or a list with unhashable members raises, caught to
give the empty set; `set` over a string gives its one-character
substrings. -/

/-- A parsed JSON value. -/
inductive Json where
  | null
  | bool (b : Bool)
  | num (n : Int)
  | str (s : String)
  | arr (elems : List Json)
  | obj (fields : List (String × Json))

/-- Whether a JSON value is an object. -/
def Json.isObj : Json → Bool
  | .obj _ => true
  | _ => false

/-- A hashable Python value, as can appear in the loaded seen-set. -/
inductive PyVal where
  | vnone
  | vbool (b : Bool)
  | vint (n : Int)
  | vstr (s : String)
deriving DecidableEq

/-- A JSON value as a Python set member; `none` for unhashable values
(lists and dicts). -/
def toPyVal : Json → Option PyVal
  | .null => some .vnone
  | .bool b => some (.vbool b)
  | .num n => some (.vint n)
  | .str s => some (.vstr s)
  | .arr _ => none
  | .obj _ => none

/-- Convert the members of a JSON array, failing (as `set(...)` raises
`TypeError`) when any member is unhashable. -/
def toPyList : List Json → Option (List PyVal)
  | [] => some []
  | j :: rest =>
    match toPyVal j, toPyList rest with
    | some v, some vs => some (v :: vs)
    | _, _ => none

/-- Python `set(x)` over a JSON value, with the `TypeError` paths
collapsed to the empty set by the caller's `except Exception`. -/
def pySet : Json → Finset PyVal
  | .arr elems =>
    match toPyList elems with
    | some vs => vs.toFinset
    | none => ∅
  | .str s => (s.toList.map (fun c => PyVal.vstr (String.mk [c]))).toFinset
  | _ => ∅

/-- Python dict lookup on JSON-object fields: duplicate keys resolve to
the last occurrence, as in `json.load`. -/
def pyGet (fields : List (String × Json)) (key : String) : Option Json :=
  fields.reverse.lookup key

/-- `load_state`: the seen-set read from the state file slot
(`none` = absent, unreadable or malformed).  Total — every failure path
of the Python is a caught exception yielding the empty set. -/
def load_state (file : Option Json) : Finset PyVal :=
  match file with
  | none => ∅
  | some (.obj fields) =>
    match pyGet fields "seen_ids" with
    | none => ∅
    | some v => pySet v
  | some _ => ∅

/-- `save_state`: the JSON document written for a seen-set — the sorted
id list under the key `"seen_ids"`. -/
def save_state (ids : Finset String) : Json :=
  .obj [("seen_ids", .arr ((ids.sort (· ≤ ·)).map .str))]

/-- The string members of a loaded seen-set.  `main` only ever feeds
pid strings to membership tests and the union, so non-string members
(impossible in a file written by `save_state`) are disregarded by the
run model. -/
def pyStrings (s : Finset PyVal) : Finset String :=
  s.biUnion (fun v => match v with | .vstr t => {t} | _ => ∅)

/-! ## Differ -/

/-- `diff_new_items`: the products whose pid is not yet seen, in the
order of `current`, and the union of the seen-set with all current
pids.  Pure — no I/O. -/
def diff_new_items (current : List Product) (seen_ids : Finset String) :
    List Product × Finset String :=
  let current_ids := (current.map Product.pid).toFinset
  let new_products := current.filter (fun p => decide (p.pid ∉ seen_ids))
  (new_products, seen_ids ∪ current_ids)

/-- The persisted seen-set after a sequence of completed runs whose
crawls produced the given product lists. -/
def seenAfter (s0 : Finset String) (runs : List (List Product)) : Finset String :=
  runs.foldl (fun s c => (diff_new_items c s).2) s0

/-! ## Notifier -/

/-- `build_email`: subject and `(html, text)` bodies. -/
def build_email (new_items : List Product) (brand_url : String) :
    String × (String × String) :=
  if new_items.isEmpty then
    ("TK Maxx GANT watcher: no new items",
     ("<p>No new items found. <a href='" ++ brand_url ++ "'>Check manually</a>.</p>",
      "No new items found."))
  else
    let lines := new_items.map (fun p =>
      "- " ++ (if p.title ≠ "" then p.title else p.pid) ++ " — "
        ++ (if p.url ≠ "" then p.url else brand_url))
    let text_body := "New items:\n" ++ String.intercalate "\n" lines
    let items_html := String.join (new_items.map (fun p =>
      "<li><a href='" ++ (if p.url ≠ "" then p.url else brand_url) ++ "'>"
        ++ (if p.title ≠ "" then p.title else p.pid)
        ++ "</a> <small>(ID: " ++ p.pid ++ ")</small></li>"))
    let html_body :=
      "\n    <h3>New TK Maxx GANT item(s): " ++ toString new_items.length ++ "</h3>\n    <ul>"
        ++ items_html
        ++ "</ul>\n    <p><a href=\"" ++ brand_url ++ "\">See all GANT at TK Maxx</a></p>\n    "
    ("New TK Maxx GANT item(s): " ++ toString new_items.length ++ " found",
     (html_body, text_body))

/-- Claim-side rendering of an item's display name: its title, or its
pid if the title is empty. -/
def displayTitle (p : Product) : String :=
  if p.title = "" then p.pid else p.title

/-- Claim-side rendering of an item's link: its url, or the brand url if
the url is empty. -/
def displayUrl (brand : String) (p : Product) : String :=
  if p.url = "" then brand else p.url

/-! ## Fetcher, crawler and the run

Network and parsing are external effects, abstracted as oracles: the
fetch oracle gives the body each attempt of a GET would return (`none`
for a failed attempt), the parse oracle turns a body into a `Soup`.
The crawl loop carries fuel; since no cycle guard exists in the source,
a crawl that never runs out of pages is modelled as fuel exhaustion and,
like a raised exception, yields `none` — in either case `main` never
reaches `save_state`. -/

/-- `BRAND_URL` from the source. -/
def BRAND_URL : String :=
  "https://www.tkmaxx.com/uk/en/search?prefn1=brand&prefv1=GANT"

/-- The tenacity wrapper on `fetch`: `stop_after_attempt(3)` — the first
successful attempt's body, terminal failure when all three attempts
fail.  The exponential back-off only spends time, which the model does
not track. -/
def fetchRetry (att : Nat → Option String) : Option String :=
  match att 0 with
  | some b => some b
  | none =>
    match att 1 with
    | some b => some b
    | none => att 2

/-- `all_products[p.pid] = p`: insertion-ordered keyed overwrite. -/
def upsert (acc : List (String × Product)) (p : Product) : List (String × Product) :=
  if acc.any (fun e => e.1 == p.pid) then
    acc.map (fun e => if e.1 == p.pid then (e.1, p) else e)
  else acc ++ [(p.pid, p)]

/-- The `while next_url:` loop of `crawl_brand`. -/
def crawlGo (fetchO : String → Nat → Option String) (parse : String → Soup)
    (base : String) : Nat → String → List (String × Product) →
    Option (List (String × Product))
  | 0, _, _ => none
  | fuel + 1, url, acc =>
    if url = "" then some acc
    else
      match fetchRetry (fetchO url) with
      | none => none
      | some body =>
        let soup := parse body
        let acc2 := (products_from_listing soup base).foldl upsert acc
        crawlGo fetchO parse base fuel (find_next_page soup base) acc2

/-- `crawl_brand`: the accumulated products of all pages, in first-seen
pid order; `none` when a page's fetch fails terminally (the exception
propagates). -/
def crawl_brand (fetchO : String → Nat → Option String) (parse : String → Soup)
    (url : String) (fuel : Nat) : Option (List Product) :=
  (crawlGo fetchO parse (baseOf url) fuel url []).map (fun acc => acc.map Prod.snd)

/-- The observable outcome of one invocation of `main`. -/
structure RunOutcome where
  finalFile : Option Json
  saveCalled : Bool
  warnings : List String
  emailSent : Bool
  newItems : List Product
  crawlOk : Bool

/-- The environment variables `main` warns about when empty
(`SMTP_PORT` is read without a warning). -/
def requiredEnvVars : List String :=
  ["SMTP_HOST", "SMTP_USERNAME", "SMTP_PASSWORD", "EMAIL_FROM", "EMAIL_TO"]

/-- `main` over the oracles and the state-file slot.  `transportOk`
abstracts the SMTP transport; connecting with an empty host cannot
succeed (`smtplib.SMTP("")` never connects, so `starttls()` raises), so
delivery succeeds only when `SMTP_HOST` is non-empty and the transport
cooperates.  A raised exception anywhere aborts the run before
`save_state`. -/
def runMain (fetchO : String → Nat → Option String) (parse : String → Soup)
    (fuel : Nat) (transportOk : Bool) (envMap : String → String)
    (file0 : Option Json) : RunOutcome :=
  match crawl_brand fetchO parse BRAND_URL fuel with
  | none => ⟨file0, false, [], false, [], false⟩
  | some products =>
    let seen := pyStrings (load_state file0)
    let d := diff_new_items products seen
    let warnings := requiredEnvVars.filter (fun n => envMap n = "")
    if d.1.isEmpty then
      ⟨some (save_state d.2), true, warnings, false, d.1, true⟩
    else
      if envMap "SMTP_HOST" ≠ "" && transportOk then
        ⟨some (save_state d.2), true, warnings, true, d.1, true⟩
      else
        ⟨file0, false, warnings, false, d.1, true⟩

/-- The product contributed by the first card in document order whose
resolved pid is the given one, if any. -/
def firstProductFor (base : String) : List Card → String → Option Product
  | [], _ => none
  | c :: rest, p =>
    match cardProduct base c with
    | some q => if q.pid = p then some q else firstProductFor base rest p
    | none => firstProductFor base rest p

/-! ## Concrete pages and oracles used by the claim instances -/

/-- A page with no card structure at all but with an embedded
`"productID":"ABC123"` fragment in its raw body. -/
def soupNoCards : Soup :=
  ⟨[], "<html><body><script>\"productID\":\"ABC123\"</script></body></html>", none, []⟩

/-- A card that matches the structural selector (`data-testid`
containing `product-card`) but carries no identifier: no id-bearing data
attribute and no `PID_PATTERNS` match in its serialised markup. -/
def cardNoPid : Card :=
  ⟨[("data-testid", "product-card")],
   "<div data-testid=\"product-card\"><span>Sale</span></div>", none, none⟩

/-- A page whose structural selection yields one (identifier-less) card
and whose raw body embeds `"productID":"ABC123"`. -/
def soupCardNoPid : Soup :=
  ⟨[cardNoPid],
   "<html><body><div data-testid=\"product-card\"><span>Sale</span></div><script>\"productID\":\"ABC123\"</script></body></html>",
   none, []⟩

/-- A `li` element carrying a whitespace-only `data-productid`
attribute: it matches the structural selector `li[data-productid]`, and
its attribute value `" "` is truthy in Python. -/
def cardWsPid : Card :=
  ⟨[("data-productid", " ")], "<li data-productid=\" \"></li>", none, none⟩

/-- The page holding only that card. -/
def soupWsPid : Soup :=
  ⟨[cardWsPid], "<html><body><li data-productid=\" \"></li></body></html>", none, []⟩

/-- A page whose raw body embeds a single `"sku":"SKU9"` fragment and
has no cards. -/
def soupSkuOnly : Soup :=
  ⟨[], "<html><body><script>\"sku\":\"SKU9\"</script></body></html>", none, []⟩

/-- Two cards sharing pid `"DUP"` with different anchors and titles. -/
def cardDupA : Card :=
  ⟨[("data-productid", "DUP")], "", some ⟨"/p/1", some "First", ""⟩, none⟩

/-- The later duplicate. -/
def cardDupB : Card :=
  ⟨[("data-productid", "DUP")], "", some ⟨"/p/2", some "Second", ""⟩, none⟩

/-- The page holding the two duplicate cards in document order. -/
def soupDup : Soup :=
  ⟨[cardDupA, cardDupB], "", none, []⟩

/-- A fetch oracle whose every attempt at every URL fails. -/
def fetchAlwaysFail : String → Nat → Option String := fun _ _ => none

/-- A parse oracle returning an empty page. -/
def parseBlank : String → Soup := fun _ => ⟨[], "", none, []⟩

/-- A fetch oracle whose first attempt always yields a page body. -/
def fetchOnePage : String → Nat → Option String := fun _ _ => some "BODY"

/-- A parse oracle returning a single-card page with pid `"X1"` and no
next-page link, so the crawl visits one page and stops. -/
def parseOnePage : String → Soup :=
  fun _ => ⟨[⟨[("data-productid", "X1")], "", none, none⟩], "", none, []⟩

/-- An environment in which every variable is unset. -/
def envAllMissing : String → String := fun _ => ""

/-! ## Helper lemmas -/

theorem toPyList_map_str (l : List String) :
    toPyList (l.map Json.str) = some (l.map PyVal.vstr) := by
  induction l with
  | nil => rfl
  | cons a t ih => simp [toPyList, toPyVal, ih]

theorem dropWhile_head_false {α : Type} (p : α → Bool) :
    ∀ (l : List α) (a : α) (t : List α), l.dropWhile p = a :: t → p a = false := by
  intro l
  induction l with
  | nil => intro a t h; simp [List.dropWhile] at h
  | cons c cs ih =>
    intro a t h
    rw [List.dropWhile_cons] at h
    by_cases hc : p c
    · rw [if_pos hc] at h
      exact ih a t h
    · rw [if_neg hc] at h
      cases h
      exact Bool.eq_false_iff.mpr hc

theorem pyStrip_not_all_space (i : String) (h : pyStrip i ≠ "") :
    ((pyStrip i).toList.all pySpace) = false := by
  by_contra hall
  rw [Bool.not_eq_false] at hall
  have htl : (pyStrip i).toList = pyStripL i.toList := rfl
  rw [htl] at hall
  unfold pyStripL at hall
  set X := (i.toList.dropWhile pySpace).reverse with hX
  have hne : X.dropWhile pySpace ≠ [] := by
    intro hnil
    apply h
    have : pyStripL i.toList = [] := by
      unfold pyStripL
      rw [← hX, hnil, List.reverse_nil]
    unfold pyStrip
    rw [this]
  obtain ⟨a, t, hat⟩ := List.exists_cons_of_ne_nil hne
  have ha : pySpace a = false := dropWhile_head_false pySpace X a t hat
  have hmem : a ∈ (X.dropWhile pySpace).reverse := by
    rw [hat]; simp
  have := List.all_eq_true.mp hall a hmem
  rw [ha] at this
  exact Bool.false_ne_true this

theorem mem_dedupFirstAux :
    ∀ (l seen : List String) (x : String), x ∈ dedupFirstAux l seen → x ∈ l := by
  intro l
  induction l with
  | nil => intro seen x h; simp [dedupFirstAux] at h
  | cons a rest ih =>
    intro seen x h
    rw [dedupFirstAux] at h
    by_cases ha : a ∈ seen
    · rw [if_pos ha] at h
      exact List.mem_cons_of_mem a (ih seen x h)
    · rw [if_neg ha] at h
      rcases List.mem_cons.mp h with hx | hx
      · exact hx ▸ List.mem_cons_self a rest
      · exact List.mem_cons_of_mem a (ih (a :: seen) x hx)

theorem mem_extract_ids_list (html : String) (x : String)
    (h : x ∈ extract_ids_list html) : x ≠ "" ∧ ∃ i, x = pyStrip i := by
  unfold extract_ids_list at h
  have h2 := mem_dedupFirstAux _ [] x h
  rw [List.mem_filter] at h2
  obtain ⟨hmem, hne⟩ := h2
  rw [List.mem_map] at hmem
  obtain ⟨i, _, hi⟩ := hmem
  exact ⟨by simpa using hne, i, hi.symm⟩

theorem mem_fallbackProducts (html : String) (p : Product)
    (h : p ∈ fallbackProducts html) :
    p.url = "" ∧ p.pid ∈ extract_product_ids html := by
  unfold fallbackProducts at h
  rw [List.mem_map] at h
  obtain ⟨pid, hpid, hp⟩ := h
  subst hp
  exact ⟨rfl, List.mem_toFinset.mpr hpid⟩

theorem cardProduct_pid_ne (base : String) (c : Card) (q : Product)
    (h : cardProduct base c = some q) : q.pid ≠ "" := by
  cases hp : cardPid c with
  | none => simp [cardProduct, hp] at h
  | some pid =>
    by_cases hne : pid = ""
    · simp [cardProduct, hp, hne] at h
    · simp [cardProduct, hp, hne] at h
      subst h
      exact hne

theorem cardsLoop_pid_ne (base : String) :
    ∀ (cards : List Card) (seen : Finset String) (p : Product),
      p ∈ cardsLoop base cards seen → p.pid ≠ "" := by
  intro cards
  induction cards with
  | nil => intro seen p h; simp [cardsLoop] at h
  | cons c rest ih =>
    intro seen p h
    cases hq : cardProduct base c with
    | none =>
      rw [cardsLoop, hq] at h
      exact ih seen p h
    | some q =>
      rw [cardsLoop, hq] at h
      dsimp only at h
      by_cases hmem : q.pid ∈ seen
      · rw [if_pos hmem] at h
        exact ih seen p h
      · rw [if_neg hmem] at h
        rcases List.mem_cons.mp h with hpq | hrest
        · subst hpq; exact cardProduct_pid_ne base c p hq
        · exact ih _ p hrest

theorem cardsLoop_filter_mem (base : String) :
    ∀ (cards : List Card) (seen : Finset String) (p : String), p ∈ seen →
      (cardsLoop base cards seen).filter (fun q => q.pid == p) = [] := by
  intro cards
  induction cards with
  | nil => intro seen p _; simp [cardsLoop]
  | cons c rest ih =>
    intro seen p hp
    rw [cardsLoop]
    cases hq : cardProduct base c with
    | none => exact ih seen p hp
    | some q =>
      dsimp only
      by_cases hmem : q.pid ∈ seen
      · rw [if_pos hmem]
        exact ih seen p hp
      · rw [if_neg hmem]
        rw [List.filter_cons]
        have hqp : (q.pid == p) = false := by
          rw [beq_eq_false_iff_ne]
          intro hpq
          exact hmem (hpq ▸ hp)
        rw [if_neg (by simp [hqp])]
        exact ih (insert q.pid seen) p (Finset.mem_insert_of_mem hp)

theorem cardsLoop_filter_not_mem (base : String) :
    ∀ (cards : List Card) (seen : Finset String) (p : String), p ∉ seen →
      (cardsLoop base cards seen).filter (fun q => q.pid == p)
        = (firstProductFor base cards p).toList := by
  intro cards
  induction cards with
  | nil => intro seen p _; simp [cardsLoop, firstProductFor]
  | cons c rest ih =>
    intro seen p hp
    rw [cardsLoop, firstProductFor]
    cases hq : cardProduct base c with
    | none => exact ih seen p hp
    | some q =>
      dsimp only
      by_cases hmem : q.pid ∈ seen
      · rw [if_pos hmem]
        have hqp : ¬ q.pid = p := fun h => hp (h ▸ hmem)
        rw [if_neg hqp]
        exact ih seen p hp
      · rw [if_neg hmem]
        rw [List.filter_cons]
        by_cases hqp : q.pid = p
        · rw [if_pos (by simp [hqp]), if_pos hqp]
          have hrest : (cardsLoop base rest (insert q.pid seen)).filter
              (fun r => r.pid == p) = [] :=
            cardsLoop_filter_mem base rest (insert q.pid seen) p
              (hqp ▸ Finset.mem_insert_self q.pid seen)
          rw [hrest]
          rfl
        · rw [if_neg (by simp [hqp]), if_neg hqp]
          have hpnot : p ∉ insert q.pid seen := by
            rw [Finset.mem_insert]
            rintro (h | h)
            · exact hqp h.symm
            · exact hp h
          exact ih (insert q.pid seen) p hpnot

/-! ## Claim theorems -/

/-- C1: for every list `current` of products and every seen-set,
`diff_new_items` returns exactly the products of `current` whose pid is
not in `seen`, in the order of `current` (a sublist), and the union of
`seen` with all pids of `current`.  The function is pure — its Lean
embedding is a plain function with no effect type. -/
theorem diff_new_items_spec (current : List Product) (seen : Finset String) :
    (∀ p : Product, p ∈ (diff_new_items current seen).1 ↔ p ∈ current ∧ p.pid ∉ seen) ∧
    (diff_new_items current seen).1.Sublist current ∧
    (∀ s : String, s ∈ (diff_new_items current seen).2 ↔
      s ∈ seen ∨ s ∈ current.map Product.pid) := by
  refine ⟨fun p => ?_, ?_, fun s => ?_⟩
  · simp [diff_new_items, List.mem_filter]
  · exact List.filter_sublist _
  · simp [diff_new_items, Finset.mem_union, List.mem_toFinset]

/-- C2: the updated seen-set is a superset of the old one, and the
persisted seen-set after a sequence of completed runs only ever grows:
extending the sequence by one more run keeps every previously seen
identifier. -/
theorem seen_set_monotone :
    (∀ (current : List Product) (seen : Finset String),
      seen ⊆ (diff_new_items current seen).2) ∧
    (∀ (s0 : Finset String) (runs : List (List Product)) (next : List Product),
      seenAfter s0 runs ⊆ seenAfter s0 (runs ++ [next])) := by
  constructor
  · intro current seen
    simp only [diff_new_items]
    exact Finset.subset_union_left
  · intro s0 runs next
    simp only [seenAfter, List.foldl_append, List.foldl_cons, List.foldl_nil, diff_new_items]
    exact Finset.subset_union_left

/-- C4: `load_state` never raises (it is a total function into
`Finset PyVal`); it returns the empty set when the file is absent or
unreadable or unparseable (`none`), when the parsed data is not an
object (`data.get` raises, caught), or when the `seen_ids` key is
missing; and when `seen_ids` holds a list of strings it returns exactly
that set of strings. -/
theorem load_state_spec :
    load_state none = ∅ ∧
    (∀ j : Json, j.isObj = false → load_state (some j) = ∅) ∧
    (∀ fields : List (String × Json), pyGet fields "seen_ids" = none →
      load_state (some (.obj fields)) = ∅) ∧
    (∀ (fields : List (String × Json)) (ids : List String),
      pyGet fields "seen_ids" = some (.arr (ids.map .str)) →
      load_state (some (.obj fields)) = (ids.map PyVal.vstr).toFinset) := by
  refine ⟨rfl, fun j hj => ?_, fun fields hf => ?_, fun fields ids hf => ?_⟩
  · cases j <;> simp_all [Json.isObj, load_state]
  · simp [load_state, hf]
  · simp [load_state, hf, pySet, toPyList_map_str]

/-- C4 witness: concrete instances of the non-trivial cases — a
non-object file, an object without `seen_ids`, and an object holding
`seen_ids = ["A", "B"]`. -/
theorem load_state_spec_witness :
    load_state (some (.num 7)) = ∅ ∧
    load_state (some (.obj [("other", .null)])) = ∅ ∧
    load_state (some (.obj [("seen_ids", .arr [.str "A", .str "B"])]))
      = (["A", "B"].map PyVal.vstr).toFinset := by
  refine ⟨load_state_spec.2.1 (.num 7) rfl,
          load_state_spec.2.2.1 [("other", .null)] rfl,
          load_state_spec.2.2.2 [("seen_ids", .arr [.str "A", .str "B"])] ["A", "B"] rfl⟩

/-- C10: saving a seen-set and loading it back returns the same set (as
string values): `save_state` serialises the sorted id list under
`"seen_ids"`, and `load_state` reads it back into a set.  The textual
JSON serialisation between the two is the identity on parsed values and
is abstracted away. -/
theorem save_load_roundtrip (ids : Finset String) :
    load_state (some (save_state ids)) = ids.image PyVal.vstr := by
  have h1 : load_state (some (save_state ids))
      = pySet (.arr ((ids.sort (· ≤ ·)).map .str)) := rfl
  rw [h1]
  simp only [pySet, toPyList_map_str]
  ext v
  simp [List.mem_toFinset, List.mem_map, Finset.mem_sort, Finset.mem_image]

/-- C8: with no new items, the subject is the fixed no-new-items string
and the body points at the brand url; with new items, the subject states
the count, the plain-text body lists every item once as
`title-or-pid — url-or-brandurl`, and the HTML body contains one anchor
per item with the same display title and link. -/
theorem build_email_spec (brand : String) :
    ((build_email [] brand).1 = "TK Maxx GANT watcher: no new items" ∧
     (build_email [] brand).2.2 = "No new items found." ∧
     ∃ pre post, (build_email [] brand).2.1 = pre ++ brand ++ post) ∧
    (∀ (p : Product) (rest : List Product),
      (build_email (p :: rest) brand).1
        = "New TK Maxx GANT item(s): " ++ toString (p :: rest).length ++ " found" ∧
      (build_email (p :: rest) brand).2.2
        = "New items:\n" ++ String.intercalate "\n"
            ((p :: rest).map (fun q => "- " ++ displayTitle q ++ " — " ++ displayUrl brand q)) ∧
      ∃ pre post, (build_email (p :: rest) brand).2.1
        = pre ++ String.join ((p :: rest).map (fun q =>
            "<li><a href='" ++ displayUrl brand q ++ "'>" ++ displayTitle q
              ++ "</a> <small>(ID: " ++ q.pid ++ ")</small></li>")) ++ post) := by
  have hdisp : ∀ q : Product, (if q.title ≠ "" then q.title else q.pid) = displayTitle q := by
    intro q
    by_cases h : q.title = "" <;> simp [displayTitle, h]
  have hurl : ∀ q : Product, (if q.url ≠ "" then q.url else brand) = displayUrl brand q := by
    intro q
    by_cases h : q.url = "" <;> simp [displayUrl, h]
  refine ⟨⟨rfl, rfl, "<p>No new items found. <a href='", "'>Check manually</a>.</p>", rfl⟩,
          fun p rest => ⟨rfl, ?_, ?_⟩⟩
  · simp only [build_email, List.isEmpty_cons, Bool.false_eq_true, if_false, hdisp, hurl]
  · refine ⟨"\n    <h3>New TK Maxx GANT item(s): " ++ toString (p :: rest).length ++ "</h3>\n    <ul>",
            "</ul>\n    <p><a href=\"" ++ brand ++ "\">See all GANT at TK Maxx</a></p>\n    ", ?_⟩
    simp only [build_email, List.isEmpty_cons, Bool.false_eq_true, if_false, hdisp, hurl]
    simp [String.append_assoc]

/-- C5 amended: the global regex fallback runs exactly when the card
path yields zero products — zero selected cards being one such case —
and every fallback product has an empty url. -/
theorem fallback_when_no_card_products (soup : Soup) (base : String) :
    (cardsProducts base soup.cards = [] →
      products_from_listing soup base = fallbackProducts soup.rawHtml) ∧
    (cardsProducts base soup.cards ≠ [] →
      products_from_listing soup base = cardsProducts base soup.cards) ∧
    (soup.cards = [] → cardsProducts base soup.cards = []) ∧
    (∀ p ∈ fallbackProducts soup.rawHtml, p.url = "") := by
  refine ⟨fun h => ?_, fun h => ?_, fun h => ?_, fun p hp => ?_⟩
  · simp [products_from_listing, h]
  · simp [products_from_listing, List.isEmpty_iff, h]
  · rw [h]; rfl
  · exact (mem_fallbackProducts soup.rawHtml p hp).1

/-- C5 witness: on the no-card page the fallback runs and yields exactly
the product with pid `"ABC123"` and empty url. -/
theorem fallback_when_no_card_products_witness :
    products_from_listing soupNoCards "https://www.tkmaxx.com"
      = fallbackProducts soupNoCards.rawHtml ∧
    fallbackProducts soupNoCards.rawHtml = [⟨"ABC123", "", ""⟩] := by
  refine ⟨(fallback_when_no_card_products soupNoCards "https://www.tkmaxx.com").1 rfl, ?_⟩
  rfl

/-- C5 counterexample: on `soupCardNoPid` structural selection yields
one card, yet the card path produces no product, so the global fallback
runs — refuting "the fallback runs exactly when structural card
selection yields zero cards". -/
theorem fallback_zero_cards_cex :
    ¬ ((cardsProducts "https://www.tkmaxx.com" soupCardNoPid.cards = [])
        ↔ soupCardNoPid.cards = []) ∧
    products_from_listing soupCardNoPid "https://www.tkmaxx.com" = [⟨"ABC123", "", ""⟩] := by
  constructor
  · intro h
    have : soupCardNoPid.cards = [] := h.mp rfl
    simp [soupCardNoPid] at this
  · rfl

/-- C6 amended: no product returned by `products_from_listing` has an
empty pid, and no product produced by the global fallback has an empty
or whitespace-only pid (the fallback strips and discards blank ids);
the card path, however, does not strip, so a whitespace-only pid can
survive there (see the counterexample). -/
theorem no_empty_pid (soup : Soup) (base : String) :
    (∀ p ∈ products_from_listing soup base, p.pid ≠ "") ∧
    (∀ p ∈ fallbackProducts soup.rawHtml, (p.pid.toList.all pySpace) = false) := by
  have hfb : ∀ p ∈ fallbackProducts soup.rawHtml, (p.pid.toList.all pySpace) = false := by
    intro p hp
    obtain ⟨-, hpid⟩ := mem_fallbackProducts soup.rawHtml p hp
    obtain ⟨hne, i, hi⟩ := mem_extract_ids_list soup.rawHtml p.pid (List.mem_toFinset.mp hpid)
    rw [hi]
    exact pyStrip_not_all_space i (hi ▸ hne)
  constructor
  · intro p hp
    rw [products_from_listing] at hp
    by_cases h : (cardsProducts base soup.cards).isEmpty
    · rw [if_pos h] at hp
      intro hcontra
      have := hfb p hp
      rw [hcontra] at this
      simp [List.all_nil] at this
    · rw [if_neg h] at hp
      exact cardsLoop_pid_ne base soup.cards ∅ p hp
  · exact hfb

/-- C6 counterexample: the card path returns a product whose pid is the
whitespace-only string `" "` — refuting "no Product returned by
`products_from_listing` has an empty or whitespace-only pid". -/
theorem whitespace_pid_cex :
    products_from_listing soupWsPid "https://www.tkmaxx.com" = [⟨" ", "", ""⟩] ∧
    (" ".toList.all pySpace) = true := by
  exact ⟨rfl, rfl⟩

/-- C6 witness: on a concrete page the returned product's pid is
neither empty nor whitespace-only. -/
theorem no_empty_pid_witness :
    (⟨"SKU9", "", ""⟩ : Product) ∈ products_from_listing soupSkuOnly "https://www.tkmaxx.com" ∧
    ("SKU9" : String) ≠ "" ∧
    (("SKU9" : String).toList.all pySpace) = false := by
  have h := no_empty_pid soupSkuOnly "https://www.tkmaxx.com"
  have hmem : (⟨"SKU9", "", ""⟩ : Product)
      ∈ products_from_listing soupSkuOnly "https://www.tkmaxx.com" := by decide
  have hmem2 : (⟨"SKU9", "", ""⟩ : Product) ∈ fallbackProducts soupSkuOnly.rawHtml := by decide
  exact ⟨hmem, h.1 _ hmem, h.2 _ hmem2⟩

/-- C7: whenever the card path yields any product (as it does when two
or more selected cards share a pid), the products returned by
`products_from_listing` contain, for each pid, exactly the product
contributed by the first card in document order that resolves to that
pid — first occurrence wins, later cards with the same pid are
dropped. -/
theorem dedup_first_card_wins (soup : Soup) (base : String) (p : String)
    (h : cardsProducts base soup.cards ≠ []) :
    (products_from_listing soup base).filter (fun q => q.pid == p)
      = (firstProductFor base soup.cards p).toList := by
  rw [products_from_listing]
  rw [if_neg (by simpa [List.isEmpty_iff] using h)]
  exact cardsLoop_filter_not_mem base soup.cards ∅ p (Finset.not_mem_empty p)

/-- C7 witness: with two cards sharing pid `"DUP"`, exactly one product
with that pid is returned, carrying the first card's url and title. -/
theorem dedup_first_card_wins_witness :
    (products_from_listing soupDup "https://www.tkmaxx.com").filter (fun q => q.pid == "DUP")
      = [⟨"DUP", "https://www.tkmaxx.com/p/1", "First"⟩] := by
  rw [dedup_first_card_wins soupDup "https://www.tkmaxx.com" "DUP" (by decide)]
  rfl

/-- C3: three failed attempts exhaust the retry budget and make the
fetch terminally fail; and whenever the crawl does not complete (a
page's fetch failed terminally, so the exception propagated out of
`crawl_brand`), the run never calls `save_state` and the on-disk state
is left exactly as before the run. -/
theorem fetch_failure_leaves_state (att : Nat → Option String)
    (h0 : att 0 = none) (h1 : att 1 = none) (h2 : att 2 = none)
    (fetchO : String → Nat → Option String) (parse : String → Soup) (fuel : Nat)
    (transportOk : Bool) (envMap : String → String) (file0 : Option Json)
    (hc : crawl_brand fetchO parse BRAND_URL fuel = none) :
    fetchRetry att = none ∧
    (runMain fetchO parse fuel transportOk envMap file0).saveCalled = false ∧
    (runMain fetchO parse fuel transportOk envMap file0).finalFile = file0 := by
  refine ⟨by rw [fetchRetry, h0, h1, h2], ?_, ?_⟩ <;>
    · rw [runMain, hc]

/-- C3 witness: with every fetch attempt failing, a concrete run leaves
the concrete initial state file untouched and never saves. -/
theorem fetch_failure_leaves_state_witness :
    fetchRetry (fun _ => none) = none ∧
    (runMain fetchAlwaysFail parseBlank 3 true (fun _ => "cfg")
        (some (.obj [("seen_ids", .arr [.str "A"])]))).saveCalled = false ∧
    (runMain fetchAlwaysFail parseBlank 3 true (fun _ => "cfg")
        (some (.obj [("seen_ids", .arr [.str "A"])]))).finalFile
      = some (.obj [("seen_ids", .arr [.str "A"])]) :=
  fetch_failure_leaves_state (fun _ => none) rfl rfl rfl
    fetchAlwaysFail parseBlank 3 true (fun _ => "cfg")
    (some (.obj [("seen_ids", .arr [.str "A"])])) rfl

/-- C9 amended: missing SMTP configuration is only logged (the warning
list records each missing variable) and never prevents the crawl or the
diff; when the diff finds no new items the state update also completes,
configured or not; but when new items are found, delivery is attempted
before the state update, and with `SMTP_HOST` empty the SMTP connection
necessarily fails, aborting the run before `save_state`. -/
theorem missing_config_only_warns (fetchO : String → Nat → Option String)
    (parse : String → Soup) (fuel : Nat) (transportOk : Bool)
    (envMap : String → String) (file0 : Option Json) (products : List Product)
    (hc : crawl_brand fetchO parse BRAND_URL fuel = some products) :
    (runMain fetchO parse fuel transportOk envMap file0).crawlOk = true ∧
    (runMain fetchO parse fuel transportOk envMap file0).newItems
      = (diff_new_items products (pyStrings (load_state file0))).1 ∧
    (runMain fetchO parse fuel transportOk envMap file0).warnings
      = requiredEnvVars.filter (fun n => decide (envMap n = "")) ∧
    ((diff_new_items products (pyStrings (load_state file0))).1 = [] →
      (runMain fetchO parse fuel transportOk envMap file0).saveCalled = true ∧
      (runMain fetchO parse fuel transportOk envMap file0).finalFile
        = some (save_state (diff_new_items products (pyStrings (load_state file0))).2)) ∧
    ((diff_new_items products (pyStrings (load_state file0))).1 ≠ [] →
      envMap "SMTP_HOST" = "" →
      (runMain fetchO parse fuel transportOk envMap file0).saveCalled = false ∧
      (runMain fetchO parse fuel transportOk envMap file0).finalFile = file0) := by
  rw [runMain, hc]
  dsimp only
  by_cases hd : (diff_new_items products (pyStrings (load_state file0))).1 = []
  · rw [if_pos (List.isEmpty_iff.mpr hd)]
    exact ⟨rfl, hd ▸ rfl, rfl, fun _ => ⟨rfl, rfl⟩, fun hne _ => absurd hd hne⟩
  · rw [if_neg (fun h => hd (List.isEmpty_iff.mp h))]
    by_cases hs : envMap "SMTP_HOST" ≠ "" && transportOk
    · rw [if_pos hs]
      refine ⟨rfl, rfl, rfl, fun h => absurd h hd, fun _ hhost => ?_⟩
      rw [Bool.and_eq_true] at hs
      exact absurd hhost (by simpa using hs.1)
    · rw [if_neg hs]
      exact ⟨rfl, rfl, rfl, fun h => absurd h hd, fun _ _ => ⟨rfl, rfl⟩⟩

/-- C9 witness: a concrete successful crawl with every SMTP variable
missing — warnings are recorded, the diff still runs, and since a new
item was found and `SMTP_HOST` is empty, the run aborts before the
state update. -/
theorem missing_config_only_warns_witness :
    (runMain fetchOnePage parseOnePage 2 true (fun _ => "") none).crawlOk = true ∧
    (runMain fetchOnePage parseOnePage 2 true (fun _ => "") none).warnings
      = requiredEnvVars.filter (fun n => decide ((fun _ : String => "") n = "")) ∧
    (runMain fetchOnePage parseOnePage 2 true (fun _ => "") none).saveCalled = false ∧
    (runMain fetchOnePage parseOnePage 2 true (fun _ => "") none).finalFile = none := by
  have h := missing_config_only_warns fetchOnePage parseOnePage 2 true
    (fun _ => "") none [⟨"X1", "", ""⟩] rfl
  have hne : (diff_new_items [(⟨"X1", "", ""⟩ : Product)]
      (pyStrings (load_state none))).1 ≠ [] := by decide
  obtain ⟨hth, -, hw, -, habort⟩ := h
  obtain ⟨hsave, hfile⟩ := habort hne rfl
  exact ⟨hth, hw, hsave, hfile⟩

/-- C9 counterexample: a concrete run in which the crawl and the diff
complete and the missing configuration is merely logged (all five
warnings), yet the state-file update does NOT complete — `saveCalled`
is false and the file is unchanged — because the attempted delivery for
the new item fails before `save_state`.  This refutes "missing SMTP
configuration does not prevent the state-file update from
completing". -/
theorem missing_config_blocks_save_cex :
    (runMain fetchOnePage parseOnePage 2 true envAllMissing none).crawlOk = true ∧
    (runMain fetchOnePage parseOnePage 2 true envAllMissing none).warnings
      = ["SMTP_HOST", "SMTP_USERNAME", "SMTP_PASSWORD", "EMAIL_FROM", "EMAIL_TO"] ∧
    (runMain fetchOnePage parseOnePage 2 true envAllMissing none).newItems ≠ [] ∧
    (runMain fetchOnePage parseOnePage 2 true envAllMissing none).saveCalled = false ∧
    (runMain fetchOnePage parseOnePage 2 true envAllMissing none).finalFile = none := by
  refine ⟨rfl, rfl, by decide, rfl, rfl⟩

end Watcher
